import Mathlib

/-!
Shallow embedding of `src/MeshCore/nodes/sync_data.py` (Denver-Mesh/docs).

Modelling conventions, stated once:

* Python strings are Lean `String`s; `s[:k]` is `pySliceTake k s`; `s.upper()` is
  `pyUpper` (the keys handled by the program are ASCII hex strings, so ASCII
  upper-casing is faithful).
* Python floats (`latitude`/`longitude`) are modelled as `Rat`.  No arithmetic is
  ever performed on them by the program: they are only carried through,
  serialized, and rendered into the fingerprint string by `f"{x}"`.  The
  rendering `pyFloatStr` is some fixed deterministic injective rendering
  (`num/den`), matching the two properties of `repr(float)` the program relies
  on: determinism and injectivity.  `None` renders as `"None"` exactly as in
  Python.
* `Node.hash` in the source is Python's `hash()` of a colon-joined string of the
  fingerprinted fields.  The embedding uses that string itself as the key
  (`Node.hash : Node → String`): `hash` is deterministic on equal strings, and
  collisions of `hash` between distinct strings are not modelled.
* Python `dict` is an insertion-ordered association list with unique keys:
  `dictInsert` replaces in place, `dictLookup` finds the entry.  The maps
  `existing_node_hash_map` / `new_node_hash_map` send each hash to itself, so
  their `.items()` sets are modelled by the deduplicated key lists (`dictKeys`);
  Python `set` difference / intersection on them is modelled by `List.filter`.
  Set iteration order is unspecified in Python; the embedding fixes one order,
  and no theorem below depends on the order of the three output lists.
* Functions that perform network or file I/O are embedded as pure functions of
  the data they would fetch: `get_den_repeaters` takes the two provider record
  lists as arguments, and the snapshot file is the `Option (List NodeJson)`
  argument of `sync_repeaters` / `sync_companions` (`none` = file absent).
  A Python exception escaping a function is the `none` of an `Option` result.
* `time.mktime` interprets a `struct_time` in the host's local timezone.  The
  embedding threads the host's UTC offset (seconds east of UTC, for the given
  wall-clock time) as the explicit parameter `utcOffset`; a host running in UTC
  has `utcOffset = 0`, America/Denver in winter has `utcOffset = -25200`.
-/

/-- Python `s[:k]` (slicing never fails, short strings are returned whole). -/
def pySliceTake (k : Nat) (s : String) : String :=
  String.mk (s.toList.take k)

/-- Python `s.upper()` restricted to ASCII, which covers the hex-id strings the
program compares. -/
def pyUpper (s : String) : String :=
  String.mk (s.toList.map Char.toUpper)

/-- Python `f"{b}"` for a bool. -/
def pyBoolStr : Bool → String
  | true => "True"
  | false => "False"

/-- Deterministic injective rendering of a rational, standing in for Python's
`repr(float)` inside the fingerprint string (see the header comment). -/
def ratStr (r : Rat) : String :=
  toString r.num ++ "/" ++ toString r.den

/-- Python `f"{x}"` for an `Optional[float]` field: `None` renders as `"None"`. -/
def pyFloatStr : Option Rat → String
  | none => "None"
  | some r => ratStr r

/-- Python `str.isdigit()` for the ASCII digit strings the program handles. -/
def pyStrIsDigit (s : String) : Bool :=
  !s.isEmpty && s.toList.all Char.isDigit

/-- Value of a list of decimal digit characters (Python `int(...)` on a digit
string). -/
def digitsVal (cs : List Char) : Nat :=
  cs.foldl (fun a c => a * 10 + (c.toNat - 48)) 0

/-- Embedding of `enum NodeType` from the source: the closed set of canonical node types. -/
inductive NodeType where
  | REPEATER
  | ROOM_SERVER
  | COMPANION
deriving DecidableEq, Repr

/-- The integer `.value` of each `NodeType` enum member. -/
def NodeType.value : NodeType → Int
  | .REPEATER => 1
  | .ROOM_SERVER => 2
  | .COMPANION => 3

/-- Embedding of `NodeType.from_int`: `raise ValueError` is the `Except.error` branch. -/
def NodeType.from_int (role : Int) : Except String NodeType :=
  if role = 1 then .ok .REPEATER
  else if role = 2 then .ok .ROOM_SERVER
  else if role = 3 then .ok .COMPANION
  else .error ("Unknown device role: " ++ toString role)

/-- Pydantic's validation of an `int` against the `NodeType` enum
(`NodeType(value)`), used when reconstructing a node from a stored JSON item. -/
def NodeType.ofValue (v : Int) : Option NodeType :=
  if v = 1 then some .REPEATER
  else if v = 2 then some .ROOM_SERVER
  else if v = 3 then some .COMPANION
  else none

/-- Embedding of `class Node(BaseNode)`: the canonical internal node record. -/
structure Node where
  public_key : String
  name : String
  latitude : Option Rat
  longitude : Option Rat
  node_type : NodeType
  is_observer : Bool
  contact : Option String
  created_at : Int
  last_heard : Int
deriving DecidableEq, Repr

/-- Embedding of `Node.public_key_id_4_char`: first four characters of the public key,
upper-cased. -/
def Node.public_key_id_4_char (n : Node) : String :=
  pyUpper (pySliceTake 4 n.public_key)

/-- Embedding of `Node.public_key_id_2_char`: first two characters of the public key,
upper-cased. -/
def Node.public_key_id_2_char (n : Node) : String :=
  pyUpper (pySliceTake 2 n.public_key)

/-- Embedding of `Node.public_key_id` (the property used by `Node.hash`). -/
def Node.public_key_id (n : Node) : String :=
  n.public_key_id_4_char

/-- Embedding of `Node.hash`: the fingerprint string
`f"{name}:{public_key_id}:{node_type.value}:{latitude}:{longitude}:{is_observer}"`.
The source feeds this string to Python's `hash`; the embedding keys on the
string itself (see the header comment). -/
def Node.hash (n : Node) : String :=
  n.name ++ ":" ++ n.public_key_id ++ ":" ++ toString n.node_type.value ++ ":" ++
    pyFloatStr n.latitude ++ ":" ++ pyFloatStr n.longitude ++ ":" ++
    pyBoolStr n.is_observer

/-- The JSON object written for one node (`Node.to_json`): same fields, with the
`node_type` enum replaced by its integer value. -/
structure NodeJson where
  public_key : String
  name : String
  latitude : Option Rat
  longitude : Option Rat
  node_type : Int
  is_observer : Bool
  contact : Option String
  created_at : Int
  last_heard : Int
deriving DecidableEq, Repr

/-- Embedding of `Node.to_json`: serialize a node to its JSON object. -/
def Node.to_json (n : Node) : NodeJson :=
  { public_key := n.public_key
    name := n.name
    latitude := n.latitude
    longitude := n.longitude
    node_type := n.node_type.value
    is_observer := n.is_observer
    contact := n.contact
    created_at := n.created_at
    last_heard := n.last_heard }

/-- Pydantic's `Node(**item)` on a stored JSON item: every field is copied and
the integer `node_type` must validate against the enum, otherwise the
constructor raises (the `none` branch). -/
def node_of_json (j : NodeJson) : Option Node :=
  match NodeType.ofValue j.node_type with
  | none => none
  | some t =>
    some { public_key := j.public_key
           name := j.name
           latitude := j.latitude
           longitude := j.longitude
           node_type := t
           is_observer := j.is_observer
           contact := j.contact
           created_at := j.created_at
           last_heard := j.last_heard }

/-- Embedding of `class MeshMapperRepeater`: a raw Provider A (MeshMapper) record. -/
structure MeshMapperRepeater where
  id : String
  hex_id : String
  name : String
  lat : Rat
  lon : Rat
  last_heard : Int
  created_at : String
  enabled : Int
  power : String
  iata : String
deriving DecidableEq, Repr

/-- Embedding of `enum LetsMeshNodeRole`: device role as returned by the LetsMesh API. -/
inductive LetsMeshNodeRole where
  | COMPANION
  | REPEATER
  | ROOM
deriving DecidableEq, Repr

/-- The integer `.value` of each `LetsMeshNodeRole` enum member. -/
def LetsMeshNodeRole.value : LetsMeshNodeRole → Int
  | .COMPANION => 1
  | .REPEATER => 2
  | .ROOM => 3

/-- Embedding of `LetsMeshNodeRole.from_int`: `raise ValueError` is the `Except.error`
branch. -/
def LetsMeshNodeRole.from_int (role : Int) : Except String LetsMeshNodeRole :=
  if role = 1 then .ok .COMPANION
  else if role = 2 then .ok .REPEATER
  else if role = 3 then .ok .ROOM
  else .error ("Unknown device role: " ++ toString role)

/-- Embedding of `LetsMeshNodeRole.to_node_type`: the 1:1 mapping onto canonical node types.
The source's trailing `else: raise` is unreachable for enum members, so the
Lean match is exhaustive. -/
def LetsMeshNodeRole.to_node_type : LetsMeshNodeRole → NodeType
  | .COMPANION => .COMPANION
  | .REPEATER => .REPEATER
  | .ROOM => .ROOM_SERVER

/-- Embedding of `class LetsMeshNodeLocation`. -/
structure LetsMeshNodeLocation where
  latitude : Rat
  longitude : Rat
deriving DecidableEq, Repr

/-- Embedding of `class LetsMeshNode`: a raw Provider B (LetsMesh) record. -/
structure LetsMeshNode where
  public_key : String
  name : String
  device_role : LetsMeshNodeRole
  regions : List String
  first_seen : String
  last_seen : String
  is_mqtt_connected : Bool
  location : Option LetsMeshNodeLocation
deriving DecidableEq, Repr

/-- Embedding of `_meshmapper_node_is_room`: scan the LetsMesh records in order and, at the
first record whose full public key equals the MeshMapper record's `hex_id`
case-insensitively, report whether that record's role is `ROOM`. -/
def meshmapper_node_is_room (node : MeshMapperRepeater) :
    List LetsMeshNode → Bool
  | [] => false
  | lm_node :: rest =>
    if pyUpper lm_node.public_key = pyUpper node.hex_id then
      lm_node.device_role = LetsMeshNodeRole.ROOM
    else meshmapper_node_is_room node rest

/-- Upper-case hex digit character for a value below 16 (`urllib` uses
upper-case hex in percent-escapes). -/
def hexDigitUpper (n : Nat) : Char :=
  if n < 10 then Char.ofNat (48 + n) else Char.ofNat (55 + n)

/-- One percent-escaped byte, e.g. `%2F`. -/
def percentByte (b : Nat) : String :=
  String.mk ['%', hexDigitUpper (b / 16), hexDigitUpper (b % 16)]

/-- UTF-8 bytes of a Unicode code point, as naturals. -/
def utf8Bytes (n : Nat) : List Nat :=
  if n < 128 then [n]
  else if n < 2048 then [192 + n / 64, 128 + n % 64]
  else if n < 65536 then [224 + n / 4096, 128 + (n / 64) % 64, 128 + n % 64]
  else [240 + n / 262144, 128 + (n / 4096) % 64, 128 + (n / 64) % 64, 128 + n % 64]

/-- Characters `urllib.parse.quote` leaves unescaped with the default
`safe="/"`: unreserved ASCII plus the slash. -/
def quoteSafeChar (c : Char) : Bool :=
  c.isAlphanum || c == '_' || c == '.' || c == '-' || c == '~' || c == '/'

/-- Embedding of `urllib.parse.quote` with its default safe set: percent-escape the UTF-8
bytes of every non-safe character. -/
def pyQuote (s : String) : String :=
  String.join (s.toList.map fun c =>
    if quoteSafeChar c then String.singleton c
    else String.join ((utf8Bytes c.toNat).map percentByte))

/-- Embedding of `_build_contact_url`. -/
def build_contact_url (name : String) (public_key : String) : String :=
  "meshcore://contact/add?name=" ++ pyQuote name ++ "&public_key=" ++
    pyUpper public_key ++ "&type=2"

/-!
`_iso8601_to_unix_timestamp` and the `time.strptime(_, "%Y-%m-%dT%H:%M:%S.%fZ")`
it calls.  CPython's `_strptime` compiles the format into the anchored regex

  `\d\d\d\d - (1[0-2]|0[1-9]|[1-9]) - (3[01]|[12]\d|0[1-9]|[1-9]) T
   (2[0-3]|[01]\d|\d) : ([0-5]\d|\d) : (6[01]|[0-5]\d|\d) \. ([0-9]{1,6}) Z`

(spaces added here for readability; literal separators in between) and requires
the match to consume the whole input.  Each matcher below implements one
component's ordered alternation.  Because every two-digit alternative consumes
a digit in second position while the following literal separator is never a
digit, local greedy ordered choice agrees with full regex backtracking on this
format, so the deterministic matchers below are faithful.  After the regex,
`_strptime` constructs `datetime_date(year, month, day)`, which raises for a
year below 1 or a day beyond the month's length; that exception is swallowed by
the caller's `except` just like a match failure.
-/

/-- Matcher for `%Y`: exactly four digits. -/
def matchYear : List Char → Option (Nat × List Char)
  | c1 :: c2 :: c3 :: c4 :: rest =>
    if c1.isDigit ∧ c2.isDigit ∧ c3.isDigit ∧ c4.isDigit then
      some (digitsVal [c1, c2, c3, c4], rest)
    else none
  | _ => none

/-- Matcher for `%m`: `1[0-2]|0[1-9]|[1-9]`. -/
def matchMonth : List Char → Option (Nat × List Char)
  | [] => none
  | [c1] =>
    if '1' ≤ c1 ∧ c1 ≤ '9' then some (c1.toNat - 48, []) else none
  | c1 :: c2 :: rest =>
    if c1 = '1' ∧ '0' ≤ c2 ∧ c2 ≤ '2' then some (10 + (c2.toNat - 48), rest)
    else if c1 = '0' ∧ '1' ≤ c2 ∧ c2 ≤ '9' then some (c2.toNat - 48, rest)
    else if '1' ≤ c1 ∧ c1 ≤ '9' then some (c1.toNat - 48, c2 :: rest)
    else none

/-- Matcher for `%d`: `3[01]|[12]\d|0[1-9]|[1-9]`. -/
def matchDay : List Char → Option (Nat × List Char)
  | [] => none
  | [c1] =>
    if '1' ≤ c1 ∧ c1 ≤ '9' then some (c1.toNat - 48, []) else none
  | c1 :: c2 :: rest =>
    if c1 = '3' ∧ (c2 = '0' ∨ c2 = '1') then some (30 + (c2.toNat - 48), rest)
    else if (c1 = '1' ∨ c1 = '2') ∧ c2.isDigit then
      some ((c1.toNat - 48) * 10 + (c2.toNat - 48), rest)
    else if c1 = '0' ∧ '1' ≤ c2 ∧ c2 ≤ '9' then some (c2.toNat - 48, rest)
    else if '1' ≤ c1 ∧ c1 ≤ '9' then some (c1.toNat - 48, c2 :: rest)
    else none

/-- Matcher for `%H`: `2[0-3]|[0-1]\d|\d`. -/
def matchHour : List Char → Option (Nat × List Char)
  | [] => none
  | [c1] => if c1.isDigit then some (c1.toNat - 48, []) else none
  | c1 :: c2 :: rest =>
    if c1 = '2' ∧ '0' ≤ c2 ∧ c2 ≤ '3' then some (20 + (c2.toNat - 48), rest)
    else if (c1 = '0' ∨ c1 = '1') ∧ c2.isDigit then
      some ((c1.toNat - 48) * 10 + (c2.toNat - 48), rest)
    else if c1.isDigit then some (c1.toNat - 48, c2 :: rest)
    else none

/-- Matcher for `%M`: `[0-5]\d|\d`. -/
def matchMinute : List Char → Option (Nat × List Char)
  | [] => none
  | [c1] => if c1.isDigit then some (c1.toNat - 48, []) else none
  | c1 :: c2 :: rest =>
    if '0' ≤ c1 ∧ c1 ≤ '5' ∧ c2.isDigit then
      some ((c1.toNat - 48) * 10 + (c2.toNat - 48), rest)
    else if c1.isDigit then some (c1.toNat - 48, c2 :: rest)
    else none

/-- Matcher for `%S`: `6[0-1]|[0-5]\d|\d` (leap seconds admitted by the regex). -/
def matchSecond : List Char → Option (Nat × List Char)
  | [] => none
  | [c1] => if c1.isDigit then some (c1.toNat - 48, []) else none
  | c1 :: c2 :: rest =>
    if c1 = '6' ∧ (c2 = '0' ∨ c2 = '1') then some (60 + (c2.toNat - 48), rest)
    else if '0' ≤ c1 ∧ c1 ≤ '5' ∧ c2.isDigit then
      some ((c1.toNat - 48) * 10 + (c2.toNat - 48), rest)
    else if c1.isDigit then some (c1.toNat - 48, c2 :: rest)
    else none

/-- Matcher for `%f`: `[0-9]{1,6}`, greedy. -/
def matchFrac (cs : List Char) : Option (Nat × List Char) :=
  let digits := (cs.takeWhile Char.isDigit).take 6
  if digits.isEmpty then none
  else some (digitsVal digits, cs.drop digits.length)

/-- A literal character of the format string. -/
def matchLit (c : Char) : List Char → Option (List Char)
  | [] => none
  | x :: rest => if x = c then some rest else none

/-- Gregorian leap year (as used by `datetime.date`). -/
def isLeapYear (y : Nat) : Bool :=
  (y % 4 == 0 && y % 100 != 0) || y % 400 == 0

/-- Length of a month, for `datetime_date`'s day validation. -/
def daysInMonth (y m : Nat) : Nat :=
  if m = 2 then (if isLeapYear y then 29 else 28)
  else if m = 4 ∨ m = 6 ∨ m = 9 ∨ m = 11 then 30 else 31

/-- Embedding of `time.strptime(iso_str, "%Y-%m-%dT%H:%M:%S.%fZ")`, returning
`(year, month, day, hour, minute, second, fraction)` or `none` when the call
raises. -/
def strptimeIsoZ (s : String) : Option (Nat × Nat × Nat × Nat × Nat × Nat × Nat) := do
  let cs := s.toList
  let (y, cs) ← matchYear cs
  let cs ← matchLit '-' cs
  let (mo, cs) ← matchMonth cs
  let cs ← matchLit '-' cs
  let (d, cs) ← matchDay cs
  let cs ← matchLit 'T' cs
  let (h, cs) ← matchHour cs
  let cs ← matchLit ':' cs
  let (mi, cs) ← matchMinute cs
  let cs ← matchLit ':' cs
  let (sec, cs) ← matchSecond cs
  let cs ← matchLit '.' cs
  let (f, cs) ← matchFrac cs
  let cs ← matchLit 'Z' cs
  if cs.isEmpty ∧ 1 ≤ y ∧ d ≤ daysInMonth y mo then
    some (y, mo, d, h, mi, sec, f)
  else none

/-- Days from 1970-01-01 to the given civil date (Howard Hinnant's
`days_from_civil`; all divisions are on nonnegative values here since the year
is at least 1). -/
def daysFromCivil (y m d : Int) : Int :=
  let yy := if m ≤ 2 then y - 1 else y
  let era := (if 0 ≤ yy then yy else yy - 399) / 400
  let yoe := yy - era * 400
  let doy := (153 * (if 2 < m then m - 3 else m + 9) + 2) / 5 + d - 1
  let doe := yoe * 365 + yoe / 4 - yoe / 100 + doy
  era * 146097 + doe - 719468

/-- Seconds since the Unix epoch of a civil UTC datetime (what
`calendar.timegm` would return; out-of-range seconds such as a leap second are
normalized by addition exactly as `mktime` does). -/
def timegmSeconds (y mo d h mi s : Nat) : Int :=
  daysFromCivil (y : Int) (mo : Int) (d : Int) * 86400 +
    ((h * 3600 + mi * 60 + s : Nat) : Int)

/-- Embedding of `_iso8601_to_unix_timestamp`.  `time.mktime` interprets the parsed fields
in the host's local timezone, so the embedding takes the host's UTC offset for
that wall-clock time (seconds east of UTC) as the parameter `utcOffset`; the
result for a wall time `W` is `timegm W - utcOffset`.  The empty string hits
the `if not iso_str` early return; every parse failure is swallowed into 0. -/
def iso8601_to_unix_timestamp (utcOffset : Int) (iso_str : String) : Int :=
  if iso_str.isEmpty then 0
  else
    match strptimeIsoZ iso_str with
    | none => 0
    | some (y, mo, d, h, mi, s, _f) => timegmSeconds y mo d h mi s - utcOffset

/-- Embedding of `get_den_repeaters`, as a pure function of the two fetched record lists
(the source fetches them itself; the fetches are I/O and are factored out). -/
def get_den_repeaters (meshmapper_repeaters : List MeshMapperRepeater)
    (letsmesh_nodes : List LetsMeshNode) : List Node :=
  meshmapper_repeaters.map fun repeater =>
    { public_key := repeater.hex_id
      name := repeater.name
      latitude := some repeater.lat
      longitude := some repeater.lon
      node_type :=
        if meshmapper_node_is_room repeater letsmesh_nodes ∧ letsmesh_nodes ≠ [] then
          NodeType.ROOM_SERVER
        else NodeType.REPEATER
      is_observer := false
      contact := some (build_contact_url repeater.name repeater.hex_id)
      created_at :=
        if pyStrIsDigit repeater.created_at then
          (digitsVal repeater.created_at.toList : Int)
        else 0
      last_heard := repeater.last_heard }

/-- Embedding of `get_den_companions`, as a pure function of the fetched LetsMesh records;
`utcOffset` is the ambient `mktime` parameter of
`iso8601_to_unix_timestamp`. -/
def get_den_companions (utcOffset : Int) (letsmesh_nodes : List LetsMeshNode) :
    List Node :=
  (letsmesh_nodes.filter fun node =>
      node.device_role = LetsMeshNodeRole.COMPANION).map fun node =>
    { public_key := node.public_key
      name := node.name
      latitude := (node.location.map LetsMeshNodeLocation.latitude)
      longitude := (node.location.map LetsMeshNodeLocation.longitude)
      node_type := node.device_role.to_node_type
      is_observer := !node.is_mqtt_connected
      contact := some (build_contact_url node.name node.public_key)
      created_at := iso8601_to_unix_timestamp utcOffset node.first_seen
      last_heard := iso8601_to_unix_timestamp utcOffset node.last_seen }

/-- Embedding of `is_reserved_public_key_id`. -/
def is_reserved_public_key_id (public_key_id : String) : Bool :=
  if pyUpper (pySliceTake 2 public_key_id) ∈ (["00", "FF"] : List String) then
    true
  else if pyUpper (pySliceTake 1 public_key_id) ∈ (["A"] : List String) then
    true
  else false

/-- Embedding of `are_same_node`: case-insensitive public-key equality. -/
def are_same_node (node_1 : Node) (node_2 : Node) : Bool :=
  if pyUpper node_1.public_key = pyUpper node_2.public_key then true
  else false

/-- The loop body of `_read_nodes_from_file`: reconstruct each stored item with
`Node(**item)` in order; the first validation failure raises out of the
function. -/
def readItems : List NodeJson → Option (List Node)
  | [] => some []
  | item :: rest =>
    match node_of_json item with
    | none => none
    | some n =>
      match readItems rest with
      | none => none
      | some ns => some (n :: ns)

/-- Embedding of `_read_nodes_from_file`: a missing file (`none`) is the empty snapshot; an
existing file holds a JSON array of node objects, each reconstructed with
`Node(**item)`.  (Malformed JSON text is likewise an uncaught exception and is
subsumed in the `none` result.) -/
def read_nodes_from_file : Option (List NodeJson) → Option (List Node)
  | none => some []
  | some data => readItems data

/-- Python `dict` assignment `d[k] = v` on an insertion-ordered association
list: replace in place if the key is present, else append. -/
def dictInsert : List (String × Node) → String → Node → List (String × Node)
  | [], k, v => [(k, v)]
  | p :: rest, k, v =>
    if p.1 = k then (k, v) :: rest else p :: dictInsert rest k v

/-- Python `dict` subscript lookup. -/
def dictLookup : List (String × Node) → String → Option Node
  | [], _ => none
  | p :: rest, key => if key = p.1 then some p.2 else dictLookup rest key

/-- One loop iteration of `_filter_diff_nodes` on the combined map:
`all_nodes[node.hash] = node`. -/
def addNode (d : List (String × Node)) (node : Node) : List (String × Node) :=
  dictInsert d node.hash node

/-- The combined `all_nodes` map after both loops of `_filter_diff_nodes`:
existing nodes first, then the new (observed) nodes, which therefore overwrite
on hash collision. -/
def build_all_nodes (existing_nodes new_nodes : List Node) :
    List (String × Node) :=
  new_nodes.foldl addNode (existing_nodes.foldl addNode [])

/-- One loop iteration on a hash-key dict (`map[_hash] = _hash`): since key and
value coincide, only the deduplicated key sequence matters. -/
def addKey (keys : List String) (k : String) : List String :=
  if keys.contains k then keys else keys ++ [k]

/-- The key sequence of `existing_node_hash_map` / `new_node_hash_map`: hashes
in first-occurrence order, deduplicated. -/
def dictKeys (hashes : List String) : List String :=
  hashes.foldl addKey []

/-- Fallback node for the total lookup `all_nodes[_hash]` (the source indexes
directly; every key looked up is present, so this default is never reached —
a fact proved below, not assumed). -/
def defaultNode : Node :=
  { public_key := ""
    name := ""
    latitude := none
    longitude := none
    node_type := NodeType.REPEATER
    is_observer := false
    contact := none
    created_at := 0
    last_heard := 0 }

/-- Embedding of `all_nodes[_hash]`: resolve a hash through the combined map. -/
def resolveNode (existing_nodes new_nodes : List Node) (key : String) : Node :=
  (dictLookup (build_all_nodes existing_nodes new_nodes) key).getD defaultNode

/-- Embedding of `_filter_diff_nodes`: classify hashes into new / duplicate / missing and
resolve each through the combined map.  Python's set difference and
intersection on the `.items()` sets are the `filter`s below (order is fixed by
the embedding; the source's set iteration order is unspecified). -/
def filter_diff_nodes (existing_nodes new_nodes : List Node) :
    List Node × List Node × List Node :=
  let existing_keys := dictKeys (existing_nodes.map Node.hash)
  let new_keys := dictKeys (new_nodes.map Node.hash)
  let true_new_nodes := new_keys.filter fun k => !(existing_keys.contains k)
  let duplicate_nodes := new_keys.filter fun k => existing_keys.contains k
  let missing_nodes := existing_keys.filter fun k => !(new_keys.contains k)
  (true_new_nodes.map (resolveNode existing_nodes new_nodes),
   duplicate_nodes.map (resolveNode existing_nodes new_nodes),
   missing_nodes.map (resolveNode existing_nodes new_nodes))

/-- Embedding of `sync_repeaters`, as a pure transition on the snapshot file: the file's
contents before the run (`none` = absent) and the observed nodes (the result
of `get_den_repeaters`, fetched by the source itself) map to the file's
contents after the run; the outer `none` is an uncaught exception while
loading the snapshot (the file is then never written).  The write stores
`[node.to_json() for node in repeaters]` — the full observed collection. -/
def sync_repeaters (storage : Option (List NodeJson)) (repeaters : List Node) :
    Option (Option (List NodeJson)) :=
  match read_nodes_from_file storage with
  | none => none
  | some existing_repeaters =>
    let res := filter_diff_nodes existing_repeaters repeaters
    if !res.1.isEmpty || !res.2.2.isEmpty then
      some (some (repeaters.map Node.to_json))
    else
      some storage

/-- Embedding of `sync_companions`: identical store policy on the companion snapshot file,
with the observed list coming from `get_den_companions`. -/
def sync_companions (storage : Option (List NodeJson)) (companions : List Node) :
    Option (Option (List NodeJson)) :=
  match read_nodes_from_file storage with
  | none => none
  | some existing_companions =>
    let res := filter_diff_nodes existing_companions companions
    if !res.1.isEmpty || !res.2.2.isEmpty then
      some (some (companions.map Node.to_json))
    else
      some storage

/-- Last node of a list carrying a given hash, if any: the value a Python dict
holds at that key after inserting the whole list in order.  Used to state and
prove the lookup characterization of the combined `all_nodes` map. -/
def lastFp : List Node → String → Option Node
  | [], _ => none
  | n :: rest, key =>
    match lastFp rest key with
    | some m => some m
    | none => if n.hash = key then some n else none

/-- Concrete canonical node used by witnesses and counterexamples. -/
def sampleNodeA : Node :=
  { public_key := "ab12ff"
    name := "Alpha"
    latitude := some 1
    longitude := some 2
    node_type := .REPEATER
    is_observer := false
    contact := some "c"
    created_at := 5
    last_heard := 6 }

/-- Same public key as `sampleNodeA`, different name (hence a different
fingerprint). -/
def sampleNodeB : Node :=
  { sampleNodeA with name := "Beta" }

/-- A node with a different public key from `sampleNodeA`. -/
def sampleNodeC : Node :=
  { sampleNodeA with public_key := "cd34aa" }

/-- Same fingerprint as `sampleNodeA` — only the non-fingerprinted `last_heard`
field differs. -/
def sampleNodeTouched : Node :=
  { sampleNodeA with last_heard := 99 }

/-- Concrete Provider A (MeshMapper) record with `hex_id = "AB12"`. -/
def sampleRepeater : MeshMapperRepeater :=
  { id := "1"
    hex_id := "AB12"
    name := "Downtown"
    lat := 39
    lon := -104
    last_heard := 3
    created_at := "77"
    enabled := 1
    power := "high"
    iata := "DEN" }

/-- Concrete Provider B (LetsMesh) record typed Room whose public key merely
begins with `AB12`. -/
def sampleLetsMeshRoomLongKey : LetsMeshNode :=
  { public_key := "AB12CD"
    name := "Lounge"
    device_role := .ROOM
    regions := ["DEN"]
    first_seen := ""
    last_seen := ""
    is_mqtt_connected := true
    location := none }

/-- Concrete Provider B record typed Room whose public key is exactly `ab12`
(case-insensitively equal to `sampleRepeater.hex_id`). -/
def sampleLetsMeshRoomExactKey : LetsMeshNode :=
  { sampleLetsMeshRoomLongKey with public_key := "ab12" }

/-! ### Lemmas about the combined map and the key sets -/

theorem dictLookup_dictInsert (d : List (String × Node)) (k : String) (v : Node)
    (key : String) :
    dictLookup (dictInsert d k v) key =
      if key = k then some v else dictLookup d key := by
  induction d with
  | nil => simp [dictInsert, dictLookup]
  | cons p rest ih =>
    by_cases hpk : p.1 = k
    · rw [dictInsert, if_pos hpk]
      by_cases hk : key = k
      · rw [dictLookup, if_pos hk, if_pos hk]
      · have hk' : ¬ key = p.1 := fun hc => hk (hc.trans hpk)
        rw [dictLookup, if_neg hk, if_neg hk, dictLookup, if_neg hk']
    · rw [dictInsert, if_neg hpk]
      by_cases hk : key = k
      · have hk' : ¬ key = p.1 := fun hc => hpk (hc.symm.trans hk)
        rw [dictLookup, if_neg hk', ih, if_pos hk, if_pos hk]
      · by_cases hp : key = p.1
        · rw [dictLookup, if_pos hp, if_neg hk, dictLookup, if_pos hp]
        · rw [dictLookup, if_neg hp, ih, if_neg hk, if_neg hk, dictLookup,
            if_neg hp]

theorem dictLookup_foldl_addNode (l : List Node) (d : List (String × Node))
    (key : String) :
    dictLookup (l.foldl addNode d) key =
      match lastFp l key with
      | some m => some m
      | none => dictLookup d key := by
  induction l generalizing d with
  | nil => simp [lastFp]
  | cons n rest ih =>
    simp only [List.foldl_cons, addNode]
    rw [ih]
    cases hrest : lastFp rest key with
    | some m => simp [lastFp, hrest]
    | none =>
      simp only [lastFp, hrest, dictLookup_dictInsert]
      by_cases h : n.hash = key
      · rw [if_pos h, if_pos h.symm]
      · have h' : ¬ key = n.hash := fun hc => h hc.symm
        rw [if_neg h, if_neg h']

theorem lastFp_eq_some (l : List Node) (key : String) (x : Node)
    (h : lastFp l key = some x) : x ∈ l ∧ x.hash = key := by
  induction l with
  | nil => simp [lastFp] at h
  | cons n rest ih =>
    rw [lastFp] at h
    cases hrest : lastFp rest key with
    | some m =>
      rw [hrest] at h
      cases h
      exact ⟨List.mem_cons_of_mem _ (ih hrest).1, (ih hrest).2⟩
    | none =>
      rw [hrest] at h
      by_cases hn : n.hash = key
      · rw [if_pos hn] at h
        cases h
        exact ⟨List.mem_cons_self _ _, hn⟩
      · rw [if_neg hn] at h
        cases h

theorem lastFp_eq_none_iff (l : List Node) (key : String) :
    lastFp l key = none ↔ key ∉ l.map Node.hash := by
  induction l with
  | nil => simp [lastFp]
  | cons n rest ih =>
    rw [lastFp]
    simp only [List.map_cons, List.mem_cons]
    cases hrest : lastFp rest key with
    | some m =>
      have hm := lastFp_eq_some rest key m hrest
      constructor
      · intro hc
        cases hc
      · intro hnot
        exact absurd (Or.inr (List.mem_map.mpr ⟨m, hm.1, hm.2⟩)) hnot
    | none =>
      rw [hrest] at ih
      by_cases hn : n.hash = key
      · simp only [if_pos hn]
        constructor
        · intro hc
          cases hc
        · intro hnot
          exact absurd (Or.inl hn.symm) hnot
      · simp only [if_neg hn]
        constructor
        · intro _ hc
          rcases hc with hc | hc
          · exact hn hc.symm
          · exact (ih.mp rfl) hc
        · intro _
          trivial

theorem lastFp_of_nodup (S : List Node) (hnodup : (S.map Node.hash).Nodup)
    (s : Node) (hs : s ∈ S) : lastFp S s.hash = some s := by
  induction S with
  | nil => cases hs
  | cons n rest ih =>
    rw [List.map_cons, List.nodup_cons] at hnodup
    rcases List.mem_cons.mp hs with hs | hs
    · subst hs
      have hnone : lastFp rest s.hash = none :=
        (lastFp_eq_none_iff rest s.hash).mpr hnodup.1
      rw [lastFp, hnone, if_pos rfl]
    · rw [lastFp, ih hnodup.2 hs]

theorem mem_addKey (acc : List String) (k x : String) :
    x ∈ addKey acc k ↔ x ∈ acc ∨ x = k := by
  unfold addKey
  by_cases h : acc.contains k
  · rw [if_pos h]
    constructor
    · exact Or.inl
    · intro hx
      rcases hx with hx | hx
      · exact hx
      · exact hx ▸ List.elem_iff.mp h
  · rw [if_neg h]
    simp

theorem mem_foldl_addKey (l : List String) (acc : List String) (x : String) :
    x ∈ l.foldl addKey acc ↔ x ∈ acc ∨ x ∈ l := by
  induction l generalizing acc with
  | nil => simp
  | cons k rest ih =>
    rw [List.foldl_cons, ih, mem_addKey]
    simp only [List.mem_cons]
    tauto

theorem mem_dictKeys (l : List String) (x : String) :
    x ∈ dictKeys l ↔ x ∈ l := by
  rw [dictKeys, mem_foldl_addKey]
  simp

theorem foldl_addKey_of_nodup (l : List String) (acc : List String)
    (h : (acc ++ l).Nodup) : l.foldl addKey acc = acc ++ l := by
  induction l generalizing acc with
  | nil => simp
  | cons k rest ih =>
    have hd := List.nodup_append.mp h
    have hk : k ∉ acc := fun hc => hd.2.2 hc (List.mem_cons_self _ _)
    have hc : ¬ acc.contains k := fun hc => hk (List.elem_iff.mp hc)
    rw [List.foldl_cons, addKey, if_neg hc]
    have hassoc : acc ++ [k] ++ rest = acc ++ k :: rest := by
      rw [List.append_assoc]
      rfl
    rw [ih (acc ++ [k]) (hassoc ▸ h), hassoc]

theorem dictKeys_of_nodup (l : List String) (h : l.Nodup) : dictKeys l = l := by
  rw [dictKeys, foldl_addKey_of_nodup l [] (by simpa using h)]
  rfl

theorem dictLookup_build_all_nodes (E O : List Node) (key : String) :
    dictLookup (build_all_nodes E O) key =
      match lastFp O key with
      | some x => some x
      | none => lastFp E key := by
  rw [build_all_nodes, dictLookup_foldl_addNode, dictLookup_foldl_addNode]
  cases lastFp O key with
  | some x => rfl
  | none =>
    cases lastFp E key with
    | some y => rfl
    | none => rfl

theorem resolveNode_of_mem_observed (E O : List Node) (key : String)
    (h : key ∈ O.map Node.hash) :
    resolveNode E O key ∈ O ∧ (resolveNode E O key).hash = key ∧
      lastFp O key = some (resolveNode E O key) := by
  cases hlast : lastFp O key with
  | none => exact absurd ((lastFp_eq_none_iff O key).mp hlast) (by simp [h])
  | some x =>
    have hx := lastFp_eq_some O key x hlast
    have hres : resolveNode E O key = x := by
      rw [resolveNode, dictLookup_build_all_nodes, hlast]
      rfl
    refine ⟨?_, ?_, ?_⟩
    · rw [hres]
      exact hx.1
    · rw [hres]
      exact hx.2
    · rw [hres]

theorem resolveNode_of_mem_existing (E O : List Node) (key : String)
    (hO : key ∉ O.map Node.hash) (hE : key ∈ E.map Node.hash) :
    resolveNode E O key ∈ E ∧ (resolveNode E O key).hash = key ∧
      lastFp E key = some (resolveNode E O key) := by
  have hnone : lastFp O key = none := (lastFp_eq_none_iff O key).mpr hO
  cases hlast : lastFp E key with
  | none => exact absurd ((lastFp_eq_none_iff E key).mp hlast) (by simp [hE])
  | some x =>
    have hx := lastFp_eq_some E key x hlast
    have hres : resolveNode E O key = x := by
      rw [resolveNode, dictLookup_build_all_nodes, hnone, hlast]
      rfl
    refine ⟨?_, ?_, ?_⟩
    · rw [hres]
      exact hx.1
    · rw [hres]
      exact hx.2
    · rw [hres]

theorem resolveNode_hash (E O : List Node) (key : String)
    (h : key ∈ E.map Node.hash ∨ key ∈ O.map Node.hash) :
    (resolveNode E O key).hash = key := by
  by_cases hO : key ∈ O.map Node.hash
  · exact (resolveNode_of_mem_observed E O key hO).2.1
  · rcases h with hE | hO'
    · exact (resolveNode_of_mem_existing E O key hO hE).2.1
    · exact absurd hO' hO

theorem contains_eq_false_iff (l : List String) (k : String) :
    l.contains k = false ↔ k ∉ l := by
  rw [← Bool.not_eq_true]
  exact not_congr List.elem_iff
theorem contains_dictKeys_iff (l : List String) (k : String) :
    (dictKeys l).contains k = true ↔ k ∈ l := by
  rw [show ((dictKeys l).contains k = true ↔ k ∈ dictKeys l) from List.elem_iff]
  exact mem_dictKeys l k

theorem not_contains_dictKeys_iff (l : List String) (k : String) :
    (!(dictKeys l).contains k) = true ↔ k ∉ l := by
  rw [Bool.not_eq_true', contains_eq_false_iff]
  exact not_congr (mem_dictKeys l k)

theorem mem_new_filter_diff (E O : List Node) (x : Node) :
    x ∈ (filter_diff_nodes E O).1 ↔
      ∃ k, k ∈ O.map Node.hash ∧ k ∉ E.map Node.hash ∧ resolveNode E O k = x := by
  show x ∈ ((dictKeys (O.map Node.hash)).filter fun k =>
      !((dictKeys (E.map Node.hash)).contains k)).map (resolveNode E O) ↔ _
  rw [List.mem_map]
  constructor
  · rintro ⟨k, hk, rfl⟩
    have hk' := List.mem_filter.mp hk
    exact ⟨k, (mem_dictKeys _ _).mp hk'.1,
      (not_contains_dictKeys_iff _ _).mp hk'.2, rfl⟩
  · rintro ⟨k, hkO, hkE, rfl⟩
    exact ⟨k, List.mem_filter.mpr ⟨(mem_dictKeys _ _).mpr hkO,
      (not_contains_dictKeys_iff _ _).mpr hkE⟩, rfl⟩

theorem mem_dup_filter_diff (E O : List Node) (x : Node) :
    x ∈ (filter_diff_nodes E O).2.1 ↔
      ∃ k, k ∈ O.map Node.hash ∧ k ∈ E.map Node.hash ∧ resolveNode E O k = x := by
  show x ∈ ((dictKeys (O.map Node.hash)).filter fun k =>
      (dictKeys (E.map Node.hash)).contains k).map (resolveNode E O) ↔ _
  rw [List.mem_map]
  constructor
  · rintro ⟨k, hk, rfl⟩
    have hk' := List.mem_filter.mp hk
    exact ⟨k, (mem_dictKeys _ _).mp hk'.1,
      (contains_dictKeys_iff _ _).mp hk'.2, rfl⟩
  · rintro ⟨k, hkO, hkE, rfl⟩
    exact ⟨k, List.mem_filter.mpr ⟨(mem_dictKeys _ _).mpr hkO,
      (contains_dictKeys_iff _ _).mpr hkE⟩, rfl⟩

theorem mem_missing_filter_diff (E O : List Node) (x : Node) :
    x ∈ (filter_diff_nodes E O).2.2 ↔
      ∃ k, k ∈ E.map Node.hash ∧ k ∉ O.map Node.hash ∧ resolveNode E O k = x := by
  show x ∈ ((dictKeys (E.map Node.hash)).filter fun k =>
      !((dictKeys (O.map Node.hash)).contains k)).map (resolveNode E O) ↔ _
  rw [List.mem_map]
  constructor
  · rintro ⟨k, hk, rfl⟩
    have hk' := List.mem_filter.mp hk
    exact ⟨k, (mem_dictKeys _ _).mp hk'.1,
      (not_contains_dictKeys_iff _ _).mp hk'.2, rfl⟩
  · rintro ⟨k, hkE, hkO, rfl⟩
    exact ⟨k, List.mem_filter.mpr ⟨(mem_dictKeys _ _).mpr hkE,
      (not_contains_dictKeys_iff _ _).mpr hkO⟩, rfl⟩

theorem hash_mem_new_filter_diff (E O : List Node) (h : String) :
    h ∈ (filter_diff_nodes E O).1.map Node.hash ↔
      h ∈ O.map Node.hash ∧ h ∉ E.map Node.hash := by
  rw [List.mem_map]
  constructor
  · rintro ⟨x, hx, rfl⟩
    obtain ⟨k, hkO, hkE, hres⟩ := (mem_new_filter_diff E O x).mp hx
    have hxk : x.hash = k := hres ▸ resolveNode_hash E O k (Or.inr hkO)
    rw [hxk]
    exact ⟨hkO, hkE⟩
  · rintro ⟨hO, hE⟩
    exact ⟨resolveNode E O h, (mem_new_filter_diff E O _).mpr ⟨h, hO, hE, rfl⟩,
      resolveNode_hash E O h (Or.inr hO)⟩

theorem hash_mem_dup_filter_diff (E O : List Node) (h : String) :
    h ∈ (filter_diff_nodes E O).2.1.map Node.hash ↔
      h ∈ O.map Node.hash ∧ h ∈ E.map Node.hash := by
  rw [List.mem_map]
  constructor
  · rintro ⟨x, hx, rfl⟩
    obtain ⟨k, hkO, hkE, hres⟩ := (mem_dup_filter_diff E O x).mp hx
    have hxk : x.hash = k := hres ▸ resolveNode_hash E O k (Or.inr hkO)
    rw [hxk]
    exact ⟨hkO, hkE⟩
  · rintro ⟨hO, hE⟩
    exact ⟨resolveNode E O h, (mem_dup_filter_diff E O _).mpr ⟨h, hO, hE, rfl⟩,
      resolveNode_hash E O h (Or.inr hO)⟩

theorem hash_mem_missing_filter_diff (E O : List Node) (h : String) :
    h ∈ (filter_diff_nodes E O).2.2.map Node.hash ↔
      h ∈ E.map Node.hash ∧ h ∉ O.map Node.hash := by
  rw [List.mem_map]
  constructor
  · rintro ⟨x, hx, rfl⟩
    obtain ⟨k, hkE, hkO, hres⟩ := (mem_missing_filter_diff E O x).mp hx
    have hxk : x.hash = k := hres ▸ resolveNode_hash E O k (Or.inl hkE)
    rw [hxk]
    exact ⟨hkE, hkO⟩
  · rintro ⟨hE, hO⟩
    exact ⟨resolveNode E O h,
      (mem_missing_filter_diff E O _).mpr ⟨h, hE, hO, rfl⟩,
      resolveNode_hash E O h (Or.inl hE)⟩

/-! ### Support lemmas for the normalizers and the store -/

theorem meshmapper_room_iff_find (rep : MeshMapperRepeater)
    (lms : List LetsMeshNode) :
    meshmapper_node_is_room rep lms = true ↔
      ∃ lm, lms.find?
          (fun l => pyUpper l.public_key == pyUpper rep.hex_id) = some lm ∧
        lm.device_role = LetsMeshNodeRole.ROOM := by
  induction lms with
  | nil =>
    simp [meshmapper_node_is_room, List.find?]
  | cons lm rest ih =>
    rw [meshmapper_node_is_room]
    by_cases h : pyUpper lm.public_key = pyUpper rep.hex_id
    · rw [if_pos h]
      have hfind : (lm :: rest).find?
          (fun l => pyUpper l.public_key == pyUpper rep.hex_id) = some lm :=
        List.find?_cons_of_pos _ (beq_iff_eq.mpr h)
      rw [hfind]
      constructor
      · intro hrole
        exact ⟨lm, rfl, of_decide_eq_true hrole⟩
      · rintro ⟨lm', hlm', hrole⟩
        cases hlm'
        exact decide_eq_true hrole
    · rw [if_neg h]
      have hfind : (lm :: rest).find?
          (fun l => pyUpper l.public_key == pyUpper rep.hex_id) =
          rest.find? (fun l => pyUpper l.public_key == pyUpper rep.hex_id) :=
        List.find?_cons_of_neg _ (by simpa using h)
      rw [ih, hfind]

theorem find?_ne_nil {p : LetsMeshNode → Bool} {lms : List LetsMeshNode}
    {lm : LetsMeshNode} (h : lms.find? p = some lm) : lms ≠ [] := by
  intro hc
  subst hc
  simp [List.find?] at h

theorem ofValue_value (t : NodeType) : NodeType.ofValue t.value = some t := by
  cases t <;> rfl

theorem node_of_json_to_json (n : Node) :
    node_of_json (Node.to_json n) = some n := by
  show (match NodeType.ofValue (Node.to_json n).node_type with
    | none => none
    | some t => some _) = some n
  have h : (Node.to_json n).node_type = n.node_type.value := rfl
  rw [h, ofValue_value]
  rfl

theorem readItems_map_to_json (l : List Node) :
    readItems (l.map Node.to_json) = some l := by
  induction l with
  | nil => rfl
  | cons n rest ih =>
    rw [List.map_cons, readItems, node_of_json_to_json, ih]

theorem pyUpper_pySliceTake (k : Nat) (s : String) :
    pyUpper (pySliceTake k s) = String.mk ((s.toList.take k).map Char.toUpper) :=
  rfl

theorem stringMk_inj (l l' : List Char) : String.mk l = String.mk l' ↔ l = l' := by
  constructor
  · intro h
    injection h
  · intro h
    rw [h]

/-! ### Claim theorems -/

/-- C1: for every pair of input lists, the three lists returned by
`_filter_diff_nodes` partition the fingerprints of `existing ∪ observed`:
every fingerprint occurring in either input appears in exactly one of the
three outputs (counted `1`), no fingerprint is in two outputs, and a
fingerprint occurring in neither input appears in none (counted `0`). -/
theorem C1_reconcile_partition (E O : List Node) (h : String) :
    ((if h ∈ (filter_diff_nodes E O).1.map Node.hash then 1 else 0) +
     (if h ∈ (filter_diff_nodes E O).2.1.map Node.hash then 1 else 0) +
     (if h ∈ (filter_diff_nodes E O).2.2.map Node.hash then 1 else 0) : Nat) =
    if h ∈ (E ++ O).map Node.hash then 1 else 0 := by
  simp only [hash_mem_new_filter_diff, hash_mem_dup_filter_diff,
    hash_mem_missing_filter_diff, List.map_append, List.mem_append]
  by_cases hE : h ∈ E.map Node.hash <;> by_cases hO : h ∈ O.map Node.hash <;>
    simp [hE, hO]

/-- C6: reconciling a snapshot with no internal fingerprint collisions against
itself yields an empty new list, an empty missing list, and an unchanged list
equal to `S` as a set. -/
theorem C6_reconcile_self_noop (S : List Node)
    (hnodup : (S.map Node.hash).Nodup) :
    (filter_diff_nodes S S).1 = [] ∧ (filter_diff_nodes S S).2.2 = [] ∧
    ∀ x : Node, x ∈ (filter_diff_nodes S S).2.1 ↔ x ∈ S := by
  refine ⟨?_, ?_, ?_⟩
  · rw [List.eq_nil_iff_forall_not_mem]
    intro x hx
    obtain ⟨k, hkO, hkE, _⟩ := (mem_new_filter_diff S S x).mp hx
    exact hkE hkO
  · rw [List.eq_nil_iff_forall_not_mem]
    intro x hx
    obtain ⟨k, hkE, hkO, _⟩ := (mem_missing_filter_diff S S x).mp hx
    exact hkO hkE
  · intro x
    rw [mem_dup_filter_diff]
    constructor
    · rintro ⟨k, hkO, _, rfl⟩
      exact (resolveNode_of_mem_observed S S k hkO).1
    · intro hx
      refine ⟨x.hash, List.mem_map.mpr ⟨x, hx, rfl⟩,
        List.mem_map.mpr ⟨x, hx, rfl⟩, ?_⟩
      have hobs := resolveNode_of_mem_observed S S x.hash
        (List.mem_map.mpr ⟨x, hx, rfl⟩)
      have hlast : lastFp S x.hash = some x := lastFp_of_nodup S hnodup x hx
      have := hobs.2.2
      rw [hlast] at this
      exact (Option.some.injEq _ _ ▸ this).symm

/-- Witness for C6 at a concrete two-node snapshot with distinct
fingerprints. -/
theorem C6_reconcile_self_noop_witness :
    (filter_diff_nodes [sampleNodeA, sampleNodeC]
      [sampleNodeA, sampleNodeC]).1 = [] ∧
    (filter_diff_nodes [sampleNodeA, sampleNodeC]
      [sampleNodeA, sampleNodeC]).2.2 = [] ∧
    (sampleNodeA ∈ (filter_diff_nodes [sampleNodeA, sampleNodeC]
      [sampleNodeA, sampleNodeC]).2.1 ↔
      sampleNodeA ∈ [sampleNodeA, sampleNodeC]) :=
  ⟨(C6_reconcile_self_noop [sampleNodeA, sampleNodeC] (by decide)).1,
   (C6_reconcile_self_noop [sampleNodeA, sampleNodeC] (by decide)).2.1,
   (C6_reconcile_self_noop [sampleNodeA, sampleNodeC] (by decide)).2.2
     sampleNodeA⟩

/-- C7 counterexample: `sampleNodeA` (= `e`) is in the existing snapshot and
`sampleNodeB` (= `o`) is in the observed list, with the same public key but a
different name and hence a different fingerprint — yet `o` is NOT classified
new: the existing snapshot also happens to contain a node with `o`'s
fingerprint, so `o` lands in the unchanged/duplicate list. -/
theorem C7_counterexample :
    sampleNodeA ∈ [sampleNodeA, sampleNodeB] ∧
    sampleNodeB ∈ [sampleNodeB] ∧
    are_same_node sampleNodeA sampleNodeB = true ∧
    Node.hash sampleNodeA ≠ Node.hash sampleNodeB ∧
    sampleNodeB ∉
      (filter_diff_nodes [sampleNodeA, sampleNodeB] [sampleNodeB]).1 ∧
    sampleNodeB ∈
      (filter_diff_nodes [sampleNodeA, sampleNodeB] [sampleNodeB]).2.1 := by
  decide

/-- C7 amended: if the existing snapshot contains `e` and the observed list
contains `o` with the same public key (case-insensitively) but a different
fingerprint, and no other node of either input shares a fingerprint with `e`
or with `o`, then reconciliation classifies `o` into the new list and `e` into
the missing list. -/
theorem C7_same_key_new_and_missing (E O : List Node) (e o : Node)
    (he : e ∈ E) (ho : o ∈ O)
    (_hsame : are_same_node e o = true)
    (_hdiff : e.hash ≠ o.hash)
    (hoE : ∀ x ∈ E, x.hash ≠ o.hash)
    (heO : ∀ x ∈ O, x.hash ≠ e.hash)
    (ho_unique : ∀ x ∈ O, x.hash = o.hash → x = o)
    (he_unique : ∀ x ∈ E, x.hash = e.hash → x = e) :
    o ∈ (filter_diff_nodes E O).1 ∧ e ∈ (filter_diff_nodes E O).2.2 := by
  constructor
  · have hoO : o.hash ∈ O.map Node.hash := List.mem_map.mpr ⟨o, ho, rfl⟩
    have hoEm : o.hash ∉ E.map Node.hash := by
      intro hc
      obtain ⟨x, hx, hxh⟩ := List.mem_map.mp hc
      exact hoE x hx hxh
    have hres := resolveNode_of_mem_observed E O o.hash hoO
    have : resolveNode E O o.hash = o := ho_unique _ hres.1 hres.2.1
    exact (mem_new_filter_diff E O o).mpr ⟨o.hash, hoO, hoEm, this⟩
  · have heE : e.hash ∈ E.map Node.hash := List.mem_map.mpr ⟨e, he, rfl⟩
    have heOm : e.hash ∉ O.map Node.hash := by
      intro hc
      obtain ⟨x, hx, hxh⟩ := List.mem_map.mp hc
      exact heO x hx hxh
    have hres := resolveNode_of_mem_existing E O e.hash heOm heE
    have : resolveNode E O e.hash = e := he_unique _ hres.1 hres.2.1
    exact (mem_missing_filter_diff E O e).mpr ⟨e.hash, heE, heOm, this⟩

/-- Witness for the amended C7 on singleton snapshots: same public key,
different name. -/
theorem C7_same_key_new_and_missing_witness :
    sampleNodeB ∈ (filter_diff_nodes [sampleNodeA] [sampleNodeB]).1 ∧
    sampleNodeA ∈ (filter_diff_nodes [sampleNodeA] [sampleNodeB]).2.2 :=
  C7_same_key_new_and_missing [sampleNodeA] [sampleNodeB] sampleNodeA
    sampleNodeB (by decide) (by decide) (by decide) (by decide) (by decide)
    (by decide) (by decide) (by decide)

/-- C10 (implicit): when a fingerprint occurs in both inputs, every node that
any of the three output lists resolves that fingerprint to is the instance
from the observed list — the last observed node with that fingerprint, i.e.
the one whose insertion overwrote the existing entry in the combined map — and
the unchanged/duplicate list does carry such a node
(`resolveNode E O h`). -/
theorem C10_observed_instance_wins (E O : List Node) (h : String)
    (hE : h ∈ E.map Node.hash) (hO : h ∈ O.map Node.hash) :
    (∀ x : Node,
      (x ∈ (filter_diff_nodes E O).1 ∨ x ∈ (filter_diff_nodes E O).2.1 ∨
        x ∈ (filter_diff_nodes E O).2.2) →
      x.hash = h → x ∈ O ∧ lastFp O h = some x) ∧
    resolveNode E O h ∈ (filter_diff_nodes E O).2.1 ∧
    resolveNode E O h ∈ O := by
  have hresolve := resolveNode_of_mem_observed E O h hO
  refine ⟨?_, (mem_dup_filter_diff E O _).mpr ⟨h, hO, hE, rfl⟩, hresolve.1⟩
  intro x hx hxh
  rcases hx with hx | hx | hx
  · obtain ⟨k, hkO, hkE, hres⟩ := (mem_new_filter_diff E O x).mp hx
    have hxk : x.hash = k := hres ▸ resolveNode_hash E O k (Or.inr hkO)
    rw [hxh] at hxk
    exact absurd hE (hxk ▸ hkE)
  · obtain ⟨k, hkO, _, hres⟩ := (mem_dup_filter_diff E O x).mp hx
    have hxk : x.hash = k := hres ▸ resolveNode_hash E O k (Or.inr hkO)
    rw [hxh] at hxk
    subst hxk
    rw [← hres]
    exact ⟨hresolve.1, hresolve.2.2⟩
  · obtain ⟨k, hkE, hkO, hres⟩ := (mem_missing_filter_diff E O x).mp hx
    have hxk : x.hash = k := hres ▸ resolveNode_hash E O k (Or.inl hkE)
    rw [hxh] at hxk
    exact absurd hO (hxk ▸ hkO)

/-- Witness for C10: existing and observed copies of the same node differ only
in `last_heard`; the duplicate list resolves their shared fingerprint to the
observed instance. -/
theorem C10_observed_instance_wins_witness :
    resolveNode [sampleNodeA] [sampleNodeTouched] (Node.hash sampleNodeA) ∈
      (filter_diff_nodes [sampleNodeA] [sampleNodeTouched]).2.1 ∧
    resolveNode [sampleNodeA] [sampleNodeTouched] (Node.hash sampleNodeA) ∈
      [sampleNodeTouched] :=
  (C10_observed_instance_wins [sampleNodeA] [sampleNodeTouched]
    (Node.hash sampleNodeA) (by decide) (by decide)).2

/-- C4: when reconciliation of the loaded snapshot against the observed list
yields empty `new` and empty `missing` lists, neither sync function writes:
the storage contents after the run are exactly the contents before it. -/
theorem C4_sync_no_write (storage : Option (List NodeJson))
    (observed existing : List Node)
    (hread : read_nodes_from_file storage = some existing)
    (hnew : (filter_diff_nodes existing observed).1 = [])
    (hmissing : (filter_diff_nodes existing observed).2.2 = []) :
    sync_repeaters storage observed = some storage ∧
    sync_companions storage observed = some storage := by
  constructor
  · rw [sync_repeaters, hread]
    simp [hnew, hmissing]
  · rw [sync_companions, hread]
    simp [hnew, hmissing]

/-- Witness for C4: the observed node differs from the stored one only in
`last_heard` (same fingerprint), and the store is left byte-identical. -/
theorem C4_sync_no_write_witness :
    sync_repeaters (some [Node.to_json sampleNodeA]) [sampleNodeTouched] =
      some (some [Node.to_json sampleNodeA]) ∧
    sync_companions (some [Node.to_json sampleNodeA]) [sampleNodeTouched] =
      some (some [Node.to_json sampleNodeA]) :=
  C4_sync_no_write (some [Node.to_json sampleNodeA]) [sampleNodeTouched]
    [sampleNodeA] (by decide) (by decide) (by decide)

/-- C5: when reconciliation yields a non-empty `new` list or a non-empty
`missing` list, both sync functions overwrite the storage with exactly the
serialization of the full observed collection, and reading that stored
snapshot back yields the observed list itself (nothing dropped, nothing
carried over from the old snapshot). -/
theorem C5_sync_write_full (storage : Option (List NodeJson))
    (observed existing : List Node)
    (hread : read_nodes_from_file storage = some existing)
    (hchange : ¬((filter_diff_nodes existing observed).1 = [] ∧
      (filter_diff_nodes existing observed).2.2 = [])) :
    sync_repeaters storage observed = some (some (observed.map Node.to_json)) ∧
    sync_companions storage observed = some (some (observed.map Node.to_json)) ∧
    read_nodes_from_file (some (observed.map Node.to_json)) = some observed := by
  have hcond : (!(filter_diff_nodes existing observed).1.isEmpty ||
      !(filter_diff_nodes existing observed).2.2.isEmpty) = true := by
    by_cases h1 : (filter_diff_nodes existing observed).1 = []
    · have h2 : (filter_diff_nodes existing observed).2.2 ≠ [] :=
        fun hc => hchange ⟨h1, hc⟩
      simp [List.isEmpty_iff, h2]
    · simp [List.isEmpty_iff, h1]
  refine ⟨?_, ?_, ?_⟩
  · rw [sync_repeaters, hread]
    simp [hcond]
  · rw [sync_companions, hread]
    simp [hcond]
  · rw [read_nodes_from_file, readItems_map_to_json]

/-- Witness for C5: syncing one observed node against an absent snapshot file
writes exactly that node's serialization. -/
theorem C5_sync_write_full_witness :
    sync_repeaters none [sampleNodeA] =
      some (some ([sampleNodeA].map Node.to_json)) ∧
    sync_companions none [sampleNodeA] =
      some (some ([sampleNodeA].map Node.to_json)) ∧
    read_nodes_from_file (some ([sampleNodeA].map Node.to_json)) =
      some [sampleNodeA] :=
  C5_sync_write_full none [sampleNodeA] [] (by decide) (by decide)

/-- C2 counterexample: Provider A returns one record with `hex_id = "AB12"`;
Provider B returns one record whose public key merely begins with `AB12`
(here `"AB12CD"`) and is typed Room — yet the normalized Provider A node is
classified `REPEATER`, not `ROOM_SERVER`, because the source compares the full
LetsMesh public key against `hex_id` for equality, not for a prefix match. -/
theorem C2_counterexample :
    pySliceTake 4 sampleLetsMeshRoomLongKey.public_key =
      sampleRepeater.hex_id ∧
    sampleLetsMeshRoomLongKey.device_role = LetsMeshNodeRole.ROOM ∧
    (get_den_repeaters [sampleRepeater] [sampleLetsMeshRoomLongKey]).map
      Node.node_type = [NodeType.REPEATER] ∧
    NodeType.REPEATER ≠ NodeType.ROOM_SERVER := by
  decide

/-- C2 amended: a normalized Provider A node is classified `ROOM_SERVER`
exactly when the first Provider B record whose full public key equals the
Provider A record's `hex_id` case-insensitively exists and is typed Room, and
`REPEATER` otherwise. -/
theorem C2_meshmapper_room_inference (reps : List MeshMapperRepeater)
    (lms : List LetsMeshNode) (rep : MeshMapperRepeater) (i : Nat)
    (h : reps[i]? = some rep) :
    ((get_den_repeaters reps lms)[i]?).map Node.node_type =
      some (match lms.find?
          (fun lm => pyUpper lm.public_key == pyUpper rep.hex_id) with
        | some lm =>
          if lm.device_role = LetsMeshNodeRole.ROOM then NodeType.ROOM_SERVER
          else NodeType.REPEATER
        | none => NodeType.REPEATER) := by
  rw [get_den_repeaters, List.getElem?_map, h, Option.map_some']
  show some (if meshmapper_node_is_room rep lms ∧ lms ≠ [] then
    NodeType.ROOM_SERVER else NodeType.REPEATER) = _
  cases hf : lms.find? (fun lm => pyUpper lm.public_key == pyUpper rep.hex_id) with
  | some lm =>
    have hne : lms ≠ [] := find?_ne_nil hf
    by_cases hrole : lm.device_role = LetsMeshNodeRole.ROOM
    · have hroom : meshmapper_node_is_room rep lms = true :=
        (meshmapper_room_iff_find rep lms).mpr ⟨lm, hf, hrole⟩
      rw [if_pos ⟨hroom, hne⟩]
      exact congrArg some (if_pos hrole).symm
    · have hnotroom : ¬ meshmapper_node_is_room rep lms = true := by
        rw [meshmapper_room_iff_find]
        rintro ⟨lm', hf', hrole'⟩
        rw [hf] at hf'
        cases hf'
        exact hrole hrole'
      rw [if_neg (fun hc : meshmapper_node_is_room rep lms = true ∧ lms ≠ [] =>
        hnotroom hc.1)]
      exact congrArg some (if_neg hrole).symm
  | none =>
    have hnotroom : ¬ meshmapper_node_is_room rep lms = true := by
      rw [meshmapper_room_iff_find]
      rintro ⟨lm', hf', _⟩
      rw [hf] at hf'
      cases hf'
    rw [if_neg (fun hc : meshmapper_node_is_room rep lms = true ∧ lms ≠ [] =>
      hnotroom hc.1)]

/-- Witness for the amended C2: the matching Provider B record has public key
exactly `ab12` (case-insensitively equal to `hex_id = "AB12"`) and is typed
Room, so the normalized node is a `ROOM_SERVER`. -/
theorem C2_meshmapper_room_inference_witness :
    ((get_den_repeaters [sampleRepeater]
      [sampleLetsMeshRoomExactKey])[0]?).map Node.node_type =
      some NodeType.ROOM_SERVER :=
  C2_meshmapper_room_inference [sampleRepeater] [sampleLetsMeshRoomExactKey]
    sampleRepeater 0 (by decide)

/-- C3: evaluation of `_iso8601_to_unix_timestamp` at the spec's scenario
inputs.  On a UTC host (`utcOffset = 0`) the example timestamp parses to the
Unix seconds of the UTC instant, `1771377540`; but because the source converts
with `time.mktime`, which interprets the parsed fields in the host's LOCAL
timezone, a host in America/Denver (winter offset -07:00, `utcOffset =
-25200`) yields `1771402740` instead — off by exactly the offset,
contradicting the claim that parsing yields the UTC instant.  Malformed input
(`"not-a-date"`) and the empty string yield `0` on every host. -/
theorem C3_iso8601_mktime_divergence :
    iso8601_to_unix_timestamp 0 "2026-02-18T01:19:00.379Z" = 1771377540 ∧
    iso8601_to_unix_timestamp (-25200) "2026-02-18T01:19:00.379Z" =
      1771402740 ∧
    (1771402740 : Int) ≠ 1771377540 ∧
    (∀ off : Int, iso8601_to_unix_timestamp off "not-a-date" = 0 ∧
      iso8601_to_unix_timestamp off "" = 0) := by
  refine ⟨by decide, by decide, by decide, ?_⟩
  intro off
  exact ⟨rfl, rfl⟩

/-- C8: the reserved short-identifier predicate returns true exactly for
identifiers whose first two characters upper-case to `00` or `FF` or whose
first character upper-cases to `A`; in particular `"00AB"` and `"A1"` are
reserved and `"BCDE"` is not. -/
theorem C8_reserved_id :
    (∀ s : String,
      is_reserved_public_key_id s = true ↔
        ((s.toList.take 2).map Char.toUpper = ['0', '0'] ∨
         (s.toList.take 2).map Char.toUpper = ['F', 'F'] ∨
         (s.toList.take 1).map Char.toUpper = ['A'])) ∧
    is_reserved_public_key_id "00AB" = true ∧
    is_reserved_public_key_id "A1" = true ∧
    is_reserved_public_key_id "BCDE" = false := by
  refine ⟨?_, by decide, by decide, by decide⟩
  intro s
  have e00 : ("00" : String) = String.mk ['0', '0'] := rfl
  have eFF : ("FF" : String) = String.mk ['F', 'F'] := rfl
  have eA : ("A" : String) = String.mk ['A'] := rfl
  constructor
  · intro h
    by_cases h2 : pyUpper (pySliceTake 2 s) ∈ (["00", "FF"] : List String)
    · rcases List.mem_cons.mp h2 with hc | hc
      · left
        rw [e00, pyUpper_pySliceTake] at hc
        exact stringMk_inj _ _ |>.mp hc
      · right
        left
        rw [List.mem_singleton] at hc
        rw [eFF, pyUpper_pySliceTake] at hc
        exact stringMk_inj _ _ |>.mp hc
    · rw [is_reserved_public_key_id, if_neg h2] at h
      by_cases h1 : pyUpper (pySliceTake 1 s) ∈ (["A"] : List String)
      · right
        right
        rw [List.mem_singleton] at h1
        rw [eA, pyUpper_pySliceTake] at h1
        exact stringMk_inj _ _ |>.mp h1
      · rw [if_neg h1] at h
        cases h
  · intro hcase
    rw [is_reserved_public_key_id]
    rcases hcase with hc | hc | hc
    · rw [if_pos (List.mem_cons.mpr (Or.inl (by
        rw [e00, pyUpper_pySliceTake]
        exact (stringMk_inj _ _).mpr hc)))]
    · rw [if_pos (List.mem_cons.mpr (Or.inr (List.mem_singleton.mpr (by
        rw [eFF, pyUpper_pySliceTake]
        exact (stringMk_inj _ _).mpr hc))))]
    · by_cases h2 : pyUpper (pySliceTake 2 s) ∈ (["00", "FF"] : List String)
      · rw [if_pos h2]
      · rw [if_neg h2, if_pos (List.mem_singleton.mpr (by
          rw [eA, pyUpper_pySliceTake]
          exact (stringMk_inj _ _).mpr hc))]

/-- C9: converting an unknown device-role integer (any value outside
`{1, 2, 3}`) raises `ValueError` in both role conversions, while for the three
known values the mappings are exhaustive and total: every known integer maps
to its enum member, and every LetsMesh role maps to its canonical node
type. -/
theorem C9_unknown_role_fatal :
    (∀ r : Int, r ≠ 1 → r ≠ 2 → r ≠ 3 →
      NodeType.from_int r =
        Except.error ("Unknown device role: " ++ toString r) ∧
      LetsMeshNodeRole.from_int r =
        Except.error ("Unknown device role: " ++ toString r)) ∧
    NodeType.from_int 1 = Except.ok NodeType.REPEATER ∧
    NodeType.from_int 2 = Except.ok NodeType.ROOM_SERVER ∧
    NodeType.from_int 3 = Except.ok NodeType.COMPANION ∧
    LetsMeshNodeRole.from_int 1 = Except.ok LetsMeshNodeRole.COMPANION ∧
    LetsMeshNodeRole.from_int 2 = Except.ok LetsMeshNodeRole.REPEATER ∧
    LetsMeshNodeRole.from_int 3 = Except.ok LetsMeshNodeRole.ROOM ∧
    LetsMeshNodeRole.COMPANION.to_node_type = NodeType.COMPANION ∧
    LetsMeshNodeRole.REPEATER.to_node_type = NodeType.REPEATER ∧
    LetsMeshNodeRole.ROOM.to_node_type = NodeType.ROOM_SERVER := by
  refine ⟨?_, rfl, rfl, rfl, rfl, rfl, rfl, rfl, rfl, rfl⟩
  intro r h1 h2 h3
  constructor
  · rw [NodeType.from_int, if_neg h1, if_neg h2, if_neg h3]
  · rw [LetsMeshNodeRole.from_int, if_neg h1, if_neg h2, if_neg h3]

/-- Witness for C9 at the unknown role integer `7`. -/
theorem C9_unknown_role_fatal_witness :
    NodeType.from_int 7 =
      Except.error ("Unknown device role: " ++ toString (7 : Int)) ∧
    LetsMeshNodeRole.from_int 7 =
      Except.error ("Unknown device role: " ++ toString (7 : Int)) :=
  C9_unknown_role_fatal.1 7 (by decide) (by decide) (by decide)
